import Mathlib

/-!
Verification of the color parsing and representation subsystem of rust-css
(src/color.rs): the `Color` value type, the HSL→RGB conversion, the
147-entry CSS keyword table and the multi-format color-string parser.

Conventions of the embedding:
* Rust `u8` channels are `Fin 256`; the `float` alpha and the HSL
  arithmetic are modelled over `ℚ` (all operations involved are exact
  rational arithmetic plus rounding).
* Rust strings are `List Char` (the inputs of interest are ASCII).
* A Rust function that can `fail!` (or hit a slice bounds assertion) is
  modelled with an explicit abort outcome: `hsla` returns `Option Color`
  (`none` = the `fail!(~"unexpected hue value")` branch) and the parser
  returns `PResult` with an `abort` constructor.
-/

namespace RustCss

/-- The `Color` struct of src/color.rs: three 8-bit channels and a
floating-point alpha, with derived structural equality. -/
structure Color where
  red : Fin 256
  green : Fin 256
  blue : Fin 256
  alpha : ℚ
deriving DecidableEq, Repr

/-- `rgba` constructor: direct field assignment. -/
def rgba (r g b : Fin 256) (a : ℚ) : Color :=
  { red := r, green := g, blue := b, alpha := a }

/-- `rgb` constructor: alpha = 1.0. -/
def rgb (r g b : Fin 256) : Color :=
  rgba r g b 1

/-- `std::float::round`: round to nearest, halves away from zero. -/
def fround (q : ℚ) : ℤ :=
  if q < 0 then -⌊-q + 1/2⌋ else ⌊q + 1/2⌋

/-- The `as u8` narrowing applied to the rounded channel value. -/
def u8cast (i : ℤ) : Fin 256 :=
  ⟨(i % 256).toNat, by
    have h1 : 0 ≤ i % 256 := Int.emod_nonneg i (by norm_num)
    have h2 : i % 256 < 256 := Int.emod_lt_of_pos i (by norm_num)
    omega⟩

/-- The hue wrap at the top of `hue_to_rgb`:
`let h = if h < 0.0 { h + 1.0 } else if h > 1.0 { h - 1.0 } else { h };`. -/
def hueWrap (h : ℚ) : ℚ :=
  if h < 0 then h + 1 else if h > 1 then h - 1 else h

/-- The inner helper `hue_to_rgb` of `hsla`; `none` models the
`fail!(~"unexpected hue value")` branch. -/
def hue_to_rgb (m1 m2 h : ℚ) : Option ℚ :=
  let h := hueWrap h
  if 0 ≤ h ∧ h < 1/6 then
    some (m1 + (m2 - m1)*h*6)
  else if 1/6 ≤ h ∧ h < 1/2 then
    some m2
  else if 1/2 ≤ h ∧ h < 2/3 then
    some (m1 + (m2 - m1)*(4 - 6*h))
  else if 2/3 ≤ h ∧ h ≤ 1 then
    some m1
  else
    none

/-- The `let m2` binding of `hsla`:
`if l <= 0.5 { l*(s + 1.0) } else { l + s - l*s }`. -/
def hslaM2 (s l : ℚ) : ℚ :=
  if l ≤ 1/2 then l*(s + 1) else l + s - l*s

/-- The `let m1 = l*2.0 - m2` binding of `hsla`. -/
def hslaM1 (s l : ℚ) : ℚ :=
  l*2 - hslaM2 s l

/-- `hsla` of src/color.rs: the hue is normalized by 360 and the three
channels are the rounded, 255-scaled values of the hue helper at the
shifted offsets `+1/3`, `0`, `-1/3`; `none` models the abort of the hue
helper. -/
def hsla (h s l a : ℚ) : Option Color :=
  match hue_to_rgb (hslaM1 s l) (hslaM2 s l) (h/360 + 1/3),
        hue_to_rgb (hslaM1 s l) (hslaM2 s l) (h/360),
        hue_to_rgb (hslaM1 s l) (hslaM2 s l) (h/360 - 1/3) with
  | some r, some g, some b =>
      some (rgba (u8cast (fround (255*r))) (u8cast (fround (255*g)))
                 (u8cast (fround (255*b))) a)
  | _, _, _ => none

/-- `hsl` constructor: `hsla` with alpha = 1.0. -/
def hsl (h s l : ℚ) : Option Color :=
  hsla h s l 1

/-! ### String primitives used by the parser -/

/-- Modelled from the spec: the library string lowercasing used by
`parse_by_name` (`to_ascii().to_lower().to_str_ascii()` is library code
outside src/). Per §4.2 of the spec it is total ASCII case-folding:
characters `A`–`Z` are shifted to `a`–`z`, all others are unchanged. -/
def toLowerChar (c : Char) : Char :=
  if 65 ≤ c.toNat ∧ c.toNat ≤ 90 then Char.ofNat (c.toNat + 32) else c

/-- ASCII lowercasing of a whole string. -/
def toLowerAscii (s : List Char) : List Char :=
  s.map toLowerChar

/-- `s` is an ASCII case permutation of `t`: the two strings agree after
ASCII case-folding. -/
def casePerm (s t : List Char) : Prop :=
  toLowerAscii s = toLowerAscii t

instance (s t : List Char) : Decidable (casePerm s t) := by
  unfold casePerm; infer_instance

/-- `str::starts_with`: literal, case-sensitive match of a leading pattern. -/
def startsWith : List Char → List Char → Bool
  | _, [] => true
  | [], _ :: _ => false
  | a :: s, b :: p => a == b && startsWith s p

/-- `str::slice(b, e)`: the substring from byte `b` (inclusive) to `e`
(exclusive); `none` models the bounds assertion failing when `b > e` or
`e` exceeds the length. -/
def strSlice (b e : Nat) (s : List Char) : Option (List Char) :=
  if b ≤ e ∧ e ≤ s.length then some ((s.drop b).take (e - b)) else none

/-- `split_iter(',')` collected into a vector: splitting on commas, with
an empty input yielding one empty component. -/
def splitComma : List Char → List (List Char)
  | [] => [[]]
  | a :: rest =>
    match a == ',', splitComma rest with
    | true, r => [] :: r
    | false, [] => [[a]]
    | false, g :: r => (a :: g) :: r

/-- ASCII whitespace recognizer. -/
def isWs (c : Char) : Bool :=
  c == ' ' || c == '\t' || c == '\n' || c == '\r'

/-- Strip leading and trailing ASCII whitespace. -/
def trimWs (s : List Char) : List Char :=
  ((s.dropWhile isWs).reverse.dropWhile isWs).reverse

/-- Decimal digit recognizer. -/
def isDigit (c : Char) : Bool :=
  48 ≤ c.toNat && c.toNat ≤ 57

/-- Value of a decimal digit string. -/
def digitsVal (s : List Char) : Nat :=
  s.foldl (fun acc c => 10 * acc + (c.toNat - 48)) 0

/-- Modelled from the spec: the library numeric conversion
`FromStr::from_str::<u8>` applied to a component (library code outside
src/). Per §4.3 of the spec: whitespace around the component is trimmed,
the digits are decimal and optionally zero-padded, and a value outside
the 8-bit range fails the conversion. -/
def from_str_u8 (s : List Char) : Option (Fin 256) :=
  let t := trimWs s
  if t ≠ [] ∧ t.all isDigit then
    if h : digitsVal t < 256 then some ⟨digitsVal t, h⟩ else none
  else none

/-- Magnitude of a decimal float literal: `digits`, `digits.`,
`digits.digits` or `.digits`. -/
def floatMag (s : List Char) : Option ℚ :=
  let ip := s.takeWhile isDigit
  match s.dropWhile isDigit with
  | [] => if ip = [] then none else some (digitsVal ip)
  | '.' :: fp =>
      if (ip ≠ [] ∨ fp ≠ []) ∧ fp.all isDigit then
        some ((digitsVal ip : ℚ) + (digitsVal fp : ℚ) / (10 ^ fp.length))
      else none
  | _ => none

/-- Modelled from the spec: the library numeric conversion
`FromStr::from_str::<float>` applied to a component (library code
outside src/). Per §4.3 of the spec: whitespace around the component is
trimmed and a decimal literal with optional sign, optional leading zero
and optional fractional part is accepted (`1`, `1.`, `1.0`, `.5`). -/
def from_str_float (s : List Char) : Option ℚ :=
  match trimWs s with
  | '-' :: r => (floatMag r).map (fun q => -q)
  | '+' :: r => floatMag r
  | r => floatMag r


/-! ### The CSS named colors (src/color.rs, mod css_colors) -/

namespace css_colors

def aliceblue : Color := rgba 240 248 255 1

def antiquewhite : Color := rgba 250 235 215 1

def aqua : Color := rgba 0 255 255 1

def aquamarine : Color := rgba 127 255 212 1

def azure : Color := rgba 240 255 255 1

def beige : Color := rgba 245 245 220 1

def bisque : Color := rgba 255 228 196 1

def black : Color := rgba 0 0 0 1

def blanchedalmond : Color := rgba 255 235 205 1

def blue : Color := rgba 0 0 255 1

def blueviolet : Color := rgba 138 43 226 1

def brown : Color := rgba 165 42 42 1

def burlywood : Color := rgba 222 184 135 1

def cadetblue : Color := rgba 95 158 160 1

def chartreuse : Color := rgba 127 255 0 1

def chocolate : Color := rgba 210 105 30 1

def coral : Color := rgba 255 127 80 1

def cornflowerblue : Color := rgba 100 149 237 1

def cornsilk : Color := rgba 255 248 220 1

def crimson : Color := rgba 220 20 60 1

def cyan : Color := rgba 0 255 255 1

def darkblue : Color := rgba 0 0 139 1

def darkcyan : Color := rgba 0 139 139 1

def darkgoldenrod : Color := rgba 184 134 11 1

def darkgray : Color := rgba 169 169 169 1

def darkgreen : Color := rgba 0 100 0 1

def darkgrey : Color := rgba 169 169 169 1

def darkkhaki : Color := rgba 189 183 107 1

def darkmagenta : Color := rgba 139 0 139 1

def darkolivegreen : Color := rgba 85 107 47 1

def darkorange : Color := rgba 255 140 0 1

def darkorchid : Color := rgba 153 50 204 1

def darkred : Color := rgba 139 0 0 1

def darksalmon : Color := rgba 233 150 122 1

def darkseagreen : Color := rgba 143 188 143 1

def darkslateblue : Color := rgba 72 61 139 1

def darkslategray : Color := rgba 47 79 79 1

def darkslategrey : Color := rgba 47 79 79 1

def darkturquoise : Color := rgba 0 206 209 1

def darkviolet : Color := rgba 148 0 211 1

def deeppink : Color := rgba 255 20 147 1

def deepskyblue : Color := rgba 0 191 255 1

def dimgray : Color := rgba 105 105 105 1

def dimgrey : Color := rgba 105 105 105 1

def dodgerblue : Color := rgba 30 144 255 1

def firebrick : Color := rgba 178 34 34 1

def floralwhite : Color := rgba 255 250 240 1

def forestgreen : Color := rgba 34 139 34 1

def fuchsia : Color := rgba 255 0 255 1

def gainsboro : Color := rgba 220 220 220 1

def ghostwhite : Color := rgba 248 248 255 1

def gold : Color := rgba 255 215 0 1

def goldenrod : Color := rgba 218 165 32 1

def gray : Color := rgba 128 128 128 1

def grey : Color := rgba 128 128 128 1

def green : Color := rgba 0 128 0 1

def greenyellow : Color := rgba 173 255 47 1

def honeydew : Color := rgba 240 255 240 1

def hotpink : Color := rgba 255 105 180 1

def indianred : Color := rgba 205 92 92 1

def indigo : Color := rgba 75 0 130 1

def ivory : Color := rgba 255 255 240 1

def khaki : Color := rgba 240 230 140 1

def lavender : Color := rgba 230 230 250 1

def lavenderblush : Color := rgba 255 240 245 1

def lawngreen : Color := rgba 124 252 0 1

def lemonchiffon : Color := rgba 255 250 205 1

def lightblue : Color := rgba 173 216 230 1

def lightcoral : Color := rgba 240 128 128 1

def lightcyan : Color := rgba 224 255 255 1

def lightgoldenrodyellow : Color := rgba 250 250 210 1

def lightgray : Color := rgba 211 211 211 1

def lightgreen : Color := rgba 144 238 144 1

def lightgrey : Color := rgba 211 211 211 1

def lightpink : Color := rgba 255 182 193 1

def lightsalmon : Color := rgba 255 160 122 1

def lightseagreen : Color := rgba 32 178 170 1

def lightskyblue : Color := rgba 135 206 250 1

def lightslategray : Color := rgba 119 136 153 1

def lightslategrey : Color := rgba 119 136 153 1

def lightsteelblue : Color := rgba 176 196 222 1

def lightyellow : Color := rgba 255 255 224 1

def lime : Color := rgba 0 255 0 1

def limegreen : Color := rgba 50 205 50 1

def linen : Color := rgba 250 240 230 1

def magenta : Color := rgba 255 0 255 1

def maroon : Color := rgba 128 0 0 1

def mediumaquamarine : Color := rgba 102 205 170 1

def mediumblue : Color := rgba 0 0 205 1

def mediumorchid : Color := rgba 186 85 211 1

def mediumpurple : Color := rgba 147 112 219 1

def mediumseagreen : Color := rgba 60 179 113 1

def mediumslateblue : Color := rgba 123 104 238 1

def mediumspringgreen : Color := rgba 0 250 154 1

def mediumturquoise : Color := rgba 72 209 204 1

def mediumvioletred : Color := rgba 199 21 133 1

def midnightblue : Color := rgba 25 25 112 1

def mintcream : Color := rgba 245 255 250 1

def mistyrose : Color := rgba 255 228 225 1

def moccasin : Color := rgba 255 228 181 1

def navajowhite : Color := rgba 255 222 173 1

def navy : Color := rgba 0 0 128 1

def oldlace : Color := rgba 253 245 230 1

def olive : Color := rgba 128 128 0 1

def olivedrab : Color := rgba 107 142 35 1

def orange : Color := rgba 255 165 0 1

def orangered : Color := rgba 255 69 0 1

def orchid : Color := rgba 218 112 214 1

def palegoldenrod : Color := rgba 238 232 170 1

def palegreen : Color := rgba 152 251 152 1

def paleturquoise : Color := rgba 175 238 238 1

def palevioletred : Color := rgba 219 112 147 1

def papayawhip : Color := rgba 255 239 213 1

def peachpuff : Color := rgba 255 218 185 1

def peru : Color := rgba 205 133 63 1

def pink : Color := rgba 255 192 203 1

def plum : Color := rgba 221 160 221 1

def powderblue : Color := rgba 176 224 230 1

def purple : Color := rgba 128 0 128 1

def red : Color := rgba 255 0 0 1

def rosybrown : Color := rgba 188 143 143 1

def royalblue : Color := rgba 65 105 225 1

def saddlebrown : Color := rgba 139 69 19 1

def salmon : Color := rgba 250 128 114 1

def sandybrown : Color := rgba 244 164 96 1

def seagreen : Color := rgba 46 139 87 1

def seashell : Color := rgba 255 245 238 1

def sienna : Color := rgba 160 82 45 1

def silver : Color := rgba 192 192 192 1

def skyblue : Color := rgba 135 206 235 1

def slateblue : Color := rgba 106 90 205 1

def slategray : Color := rgba 112 128 144 1

def slategrey : Color := rgba 112 128 144 1

def snow : Color := rgba 255 250 250 1

def springgreen : Color := rgba 0 255 127 1

def steelblue : Color := rgba 70 130 180 1

def tan : Color := rgba 210 180 140 1

def teal : Color := rgba 0 128 128 1

def thistle : Color := rgba 216 191 216 1

def tomato : Color := rgba 255 99 71 1

def turquoise : Color := rgba 64 224 208 1

def violet : Color := rgba 238 130 238 1

def wheat : Color := rgba 245 222 179 1

def white : Color := rgba 255 255 255 1

def whitesmoke : Color := rgba 245 245 245 1

def yellow : Color := rgba 255 255 0 1

def yellowgreen : Color := rgba 154 205 50 1

end css_colors

/-- The keyword table of `parse_by_name` in src/color.rs: the match arms
from lowercased name to named-color constant, in source order. -/
def namedColors : List (List Char × Color) := [
  ("aliceblue".data, css_colors.aliceblue),
  ("antiquewhite".data, css_colors.antiquewhite),
  ("aqua".data, css_colors.aqua),
  ("aquamarine".data, css_colors.aquamarine),
  ("azure".data, css_colors.azure),
  ("beige".data, css_colors.beige),
  ("bisque".data, css_colors.bisque),
  ("black".data, css_colors.black),
  ("blanchedalmond".data, css_colors.blanchedalmond),
  ("blue".data, css_colors.blue),
  ("blueviolet".data, css_colors.blueviolet),
  ("brown".data, css_colors.brown),
  ("burlywood".data, css_colors.burlywood),
  ("cadetblue".data, css_colors.cadetblue),
  ("chartreuse".data, css_colors.chartreuse),
  ("chocolate".data, css_colors.chocolate),
  ("coral".data, css_colors.coral),
  ("cornflowerblue".data, css_colors.cornflowerblue),
  ("cornsilk".data, css_colors.cornsilk),
  ("crimson".data, css_colors.crimson),
  ("cyan".data, css_colors.cyan),
  ("darkblue".data, css_colors.darkblue),
  ("darkcyan".data, css_colors.darkcyan),
  ("darkgoldenrod".data, css_colors.darkgoldenrod),
  ("darkgray".data, css_colors.darkgray),
  ("darkgreen".data, css_colors.darkgreen),
  ("darkgrey".data, css_colors.darkgrey),
  ("darkkhaki".data, css_colors.darkkhaki),
  ("darkmagenta".data, css_colors.darkmagenta),
  ("darkolivegreen".data, css_colors.darkolivegreen),
  ("darkorange".data, css_colors.darkorange),
  ("darkorchid".data, css_colors.darkorchid),
  ("darkred".data, css_colors.darkred),
  ("darksalmon".data, css_colors.darksalmon),
  ("darkseagreen".data, css_colors.darkseagreen),
  ("darkslateblue".data, css_colors.darkslateblue),
  ("darkslategray".data, css_colors.darkslategray),
  ("darkslategrey".data, css_colors.darkslategrey),
  ("darkturquoise".data, css_colors.darkturquoise),
  ("darkviolet".data, css_colors.darkviolet),
  ("deeppink".data, css_colors.deeppink),
  ("deepskyblue".data, css_colors.deepskyblue),
  ("dimgray".data, css_colors.dimgray),
  ("dimgrey".data, css_colors.dimgrey),
  ("dodgerblue".data, css_colors.dodgerblue),
  ("firebrick".data, css_colors.firebrick),
  ("floralwhite".data, css_colors.floralwhite),
  ("forestgreen".data, css_colors.forestgreen),
  ("fuchsia".data, css_colors.fuchsia),
  ("gainsboro".data, css_colors.gainsboro),
  ("ghostwhite".data, css_colors.ghostwhite),
  ("gold".data, css_colors.gold),
  ("goldenrod".data, css_colors.goldenrod),
  ("gray".data, css_colors.gray),
  ("grey".data, css_colors.grey),
  ("green".data, css_colors.green),
  ("greenyellow".data, css_colors.greenyellow),
  ("honeydew".data, css_colors.honeydew),
  ("hotpink".data, css_colors.hotpink),
  ("indianred".data, css_colors.indianred),
  ("indigo".data, css_colors.indigo),
  ("ivory".data, css_colors.ivory),
  ("khaki".data, css_colors.khaki),
  ("lavender".data, css_colors.lavender),
  ("lavenderblush".data, css_colors.lavenderblush),
  ("lawngreen".data, css_colors.lawngreen),
  ("lemonchiffon".data, css_colors.lemonchiffon),
  ("lightblue".data, css_colors.lightblue),
  ("lightcoral".data, css_colors.lightcoral),
  ("lightcyan".data, css_colors.lightcyan),
  ("lightgoldenrodyellow".data, css_colors.lightgoldenrodyellow),
  ("lightgray".data, css_colors.lightgray),
  ("lightgreen".data, css_colors.lightgreen),
  ("lightgrey".data, css_colors.lightgrey),
  ("lightpink".data, css_colors.lightpink),
  ("lightsalmon".data, css_colors.lightsalmon),
  ("lightseagreen".data, css_colors.lightseagreen),
  ("lightskyblue".data, css_colors.lightskyblue),
  ("lightslategray".data, css_colors.lightslategray),
  ("lightslategrey".data, css_colors.lightslategrey),
  ("lightsteelblue".data, css_colors.lightsteelblue),
  ("lightyellow".data, css_colors.lightyellow),
  ("lime".data, css_colors.lime),
  ("limegreen".data, css_colors.limegreen),
  ("linen".data, css_colors.linen),
  ("magenta".data, css_colors.magenta),
  ("maroon".data, css_colors.maroon),
  ("mediumaquamarine".data, css_colors.mediumaquamarine),
  ("mediumblue".data, css_colors.mediumblue),
  ("mediumorchid".data, css_colors.mediumorchid),
  ("mediumpurple".data, css_colors.mediumpurple),
  ("mediumseagreen".data, css_colors.mediumseagreen),
  ("mediumslateblue".data, css_colors.mediumslateblue),
  ("mediumspringgreen".data, css_colors.mediumspringgreen),
  ("mediumturquoise".data, css_colors.mediumturquoise),
  ("mediumvioletred".data, css_colors.mediumvioletred),
  ("midnightblue".data, css_colors.midnightblue),
  ("mintcream".data, css_colors.mintcream),
  ("mistyrose".data, css_colors.mistyrose),
  ("moccasin".data, css_colors.moccasin),
  ("navajowhite".data, css_colors.navajowhite),
  ("navy".data, css_colors.navy),
  ("oldlace".data, css_colors.oldlace),
  ("olive".data, css_colors.olive),
  ("olivedrab".data, css_colors.olivedrab),
  ("orange".data, css_colors.orange),
  ("orangered".data, css_colors.orangered),
  ("orchid".data, css_colors.orchid),
  ("palegoldenrod".data, css_colors.palegoldenrod),
  ("palegreen".data, css_colors.palegreen),
  ("paleturquoise".data, css_colors.paleturquoise),
  ("palevioletred".data, css_colors.palevioletred),
  ("papayawhip".data, css_colors.papayawhip),
  ("peachpuff".data, css_colors.peachpuff),
  ("peru".data, css_colors.peru),
  ("pink".data, css_colors.pink),
  ("plum".data, css_colors.plum),
  ("powderblue".data, css_colors.powderblue),
  ("purple".data, css_colors.purple),
  ("red".data, css_colors.red),
  ("rosybrown".data, css_colors.rosybrown),
  ("royalblue".data, css_colors.royalblue),
  ("saddlebrown".data, css_colors.saddlebrown),
  ("salmon".data, css_colors.salmon),
  ("sandybrown".data, css_colors.sandybrown),
  ("seagreen".data, css_colors.seagreen),
  ("seashell".data, css_colors.seashell),
  ("sienna".data, css_colors.sienna),
  ("silver".data, css_colors.silver),
  ("skyblue".data, css_colors.skyblue),
  ("slateblue".data, css_colors.slateblue),
  ("slategray".data, css_colors.slategray),
  ("slategrey".data, css_colors.slategrey),
  ("snow".data, css_colors.snow),
  ("springgreen".data, css_colors.springgreen),
  ("steelblue".data, css_colors.steelblue),
  ("tan".data, css_colors.tan),
  ("teal".data, css_colors.teal),
  ("thistle".data, css_colors.thistle),
  ("tomato".data, css_colors.tomato),
  ("turquoise".data, css_colors.turquoise),
  ("violet".data, css_colors.violet),
  ("wheat".data, css_colors.wheat),
  ("white".data, css_colors.white),
  ("whitesmoke".data, css_colors.whitesmoke),
  ("yellow".data, css_colors.yellow),
  ("yellowgreen".data, css_colors.yellowgreen)]


/-! ### The parser (src/color.rs, mod parsing) -/

/-- Outcome of a parsing function: `ok` is `Some(color)`, `unrecognized`
is the `None` produced by `fail_unrecognized`, and `abort` models a task
failure (a slice bounds assertion or the hue helper's `fail!`). -/
inductive PResult where
  | ok : Color → PResult
  | unrecognized : PResult
  | abort : PResult
deriving DecidableEq, Repr

/-- `fail_unrecognized`: logs a warning (a side channel with no
caller-visible effect) and returns `None`. -/
def fail_unrecognized (_col : List Char) : PResult :=
  .unrecognized

/-- First-match lookup in an association list of keyword/color rows,
modelling the `match` over string literals in `parse_by_name`. -/
def lookupColor (k : List Char) : List (List Char × Color) → Option Color
  | [] => none
  | (k', c) :: rest => if k = k' then some c else lookupColor k rest

/-- `parse_by_name`: lowercase the input, then match it against the
keyword table. -/
def parse_by_name (color : List Char) : PResult :=
  match lookupColor (toLowerAscii color) namedColors with
  | some col => .ok col
  | none => fail_unrecognized color

/-- `parse_rgb`: shave off the `rgb(` and the final character, split on
commas, check arity 3, convert each component as `u8`. -/
def parse_rgb (color : List Char) : PResult :=
  match strSlice 4 (color.length - 1) color with
  | none => .abort
  | some only_colors =>
    if (splitComma only_colors).length ≠ 3 then fail_unrecognized color
    else
      match from_str_u8 (splitComma only_colors)[0]!,
            from_str_u8 (splitComma only_colors)[1]!,
            from_str_u8 (splitComma only_colors)[2]! with
      | some r, some g, some b => .ok (rgb r g b)
      | _, _, _ => fail_unrecognized color

/-- `parse_rgba`: shave off the `rgba(` and the final character, split on
commas, check arity 4, convert r/g/b as `u8` and the alpha as `float`. -/
def parse_rgba (color : List Char) : PResult :=
  match strSlice 5 (color.length - 1) color with
  | none => .abort
  | some only_vals =>
    if (splitComma only_vals).length ≠ 4 then fail_unrecognized color
    else
      match from_str_u8 (splitComma only_vals)[0]!,
            from_str_u8 (splitComma only_vals)[1]!,
            from_str_u8 (splitComma only_vals)[2]!,
            from_str_float (splitComma only_vals)[3]! with
      | some r, some g, some b, some a => .ok (rgba r g b a)
      | _, _, _, _ => fail_unrecognized color

/-- `parse_hsl`: shave off the `hsl(` and the final character, split on
commas, check arity 3, convert each component as `float`, then convert
through `hsl` (whose hue helper may abort). -/
def parse_hsl (color : List Char) : PResult :=
  match strSlice 4 (color.length - 1) color with
  | none => .abort
  | some only_vals =>
    if (splitComma only_vals).length ≠ 3 then fail_unrecognized color
    else
      match from_str_float (splitComma only_vals)[0]!,
            from_str_float (splitComma only_vals)[1]!,
            from_str_float (splitComma only_vals)[2]! with
      | some h, some s, some l =>
        match hsl h s l with
        | some col => .ok col
        | none => .abort
      | _, _, _ => fail_unrecognized color

/-- `parse_hsla`: shave off the `hsla(` and the final character, split on
commas, check arity 4, convert each component as `float`, then convert
through `hsla` (whose hue helper may abort). -/
def parse_hsla (color : List Char) : PResult :=
  match strSlice 5 (color.length - 1) color with
  | none => .abort
  | some only_vals =>
    if (splitComma only_vals).length ≠ 4 then fail_unrecognized color
    else
      match from_str_float (splitComma only_vals)[0]!,
            from_str_float (splitComma only_vals)[1]!,
            from_str_float (splitComma only_vals)[2]!,
            from_str_float (splitComma only_vals)[3]! with
      | some h, some s, some l, some a =>
        match hsla h s l a with
        | some col => .ok col
        | none => .abort
      | _, _, _, _ => fail_unrecognized color

/-- `parse_color`: dispatch on the literal leading pattern, first match
wins, falling back to the keyword path. -/
def parse_color (color : List Char) : PResult :=
  if startsWith color ("rgb(".data) then parse_rgb color
  else if startsWith color ("rgba(".data) then parse_rgba color
  else if startsWith color ("hsl(".data) then parse_hsl color
  else if startsWith color ("hsla(".data) then parse_hsla color
  else parse_by_name color

/-! ### Auxiliary lemmas -/

attribute [local semireducible] Rat.add Rat.mul Rat.inv Rat.sub Rat.ofScientific

set_option maxRecDepth 100000

set_option maxHeartbeats 1000000

theorem startsWith_exists {s p : List Char} (h : startsWith s p = true) :
    ∃ r, s = p ++ r := by
  induction p generalizing s with
  | nil => exact ⟨s, rfl⟩
  | cons b p ih =>
    cases s with
    | nil => simp [startsWith] at h
    | cons a s =>
      simp only [startsWith, Bool.and_eq_true, beq_iff_eq] at h
      obtain ⟨r, hr⟩ := ih h.2
      exact ⟨r, by simp [h.1, hr]⟩

theorem startsWith_toLower {s p : List Char} (h : startsWith s p = true) :
    startsWith (toLowerAscii s) (toLowerAscii p) = true := by
  induction p generalizing s with
  | nil => simp [startsWith, toLowerAscii]
  | cons b p ih =>
    cases s with
    | nil => simp [startsWith] at h
    | cons a s =>
      simp only [startsWith, Bool.and_eq_true, beq_iff_eq] at h
      simpa [toLowerAscii, startsWith, h.1] using ih h.2

theorem startsWith_subset {s p : List Char} (h : startsWith s p = true) :
    ∀ c ∈ p, c ∈ s := by
  obtain ⟨r, rfl⟩ := startsWith_exists h
  intro c hc
  exact List.mem_append_left r hc

theorem lookupColor_mem {k : List Char} {c : Color} :
    ∀ {l : List (List Char × Color)}, lookupColor k l = some c → (k, c) ∈ l := by
  intro l
  induction l with
  | nil => simp [lookupColor]
  | cons p l ih =>
    obtain ⟨k', c'⟩ := p
    simp only [lookupColor]
    split
    · rename_i hk
      intro hc
      simp only [Option.some.injEq] at hc
      simp [hk, hc]
    · intro hc
      exact List.mem_cons_of_mem _ (ih hc)

theorem lookupColor_of_mem {k : List Char} {c : Color} :
    ∀ {l : List (List Char × Color)}, (l.map Prod.fst).Nodup →
      (k, c) ∈ l → lookupColor k l = some c := by
  intro l
  induction l with
  | nil => simp
  | cons p l ih =>
    obtain ⟨k', c'⟩ := p
    intro nd hm
    simp only [List.map_cons, List.nodup_cons, List.mem_map] at nd
    rcases List.mem_cons.1 hm with h | h
    · simp only [Prod.mk.injEq] at h
      simp [lookupColor, h.1, h.2]
    · have hk : k ≠ k' := by
        rintro rfl
        exact nd.1 ⟨(k, c), h, rfl⟩
      simp only [lookupColor, if_neg hk]
      exact ih nd.2 h

theorem namedColors_lower : ∀ p ∈ namedColors, toLowerAscii p.1 = p.1 := by decide

theorem namedColors_nodupKeys : (namedColors.map Prod.fst).Nodup := by decide

theorem namedColors_noParen : ∀ p ∈ namedColors, ('(' : Char) ∉ p.1 := by decide

theorem div360_bounds {h : ℚ} (h1 : -240 ≤ h) (h2 : h ≤ 600) :
    -(2/3) ≤ h / 360 ∧ h / 360 ≤ 5/3 := by
  constructor
  · rw [le_div_iff₀ (by norm_num : (0:ℚ) < 360)]
    linarith
  · rw [div_le_iff₀ (by norm_num : (0:ℚ) < 360)]
    linarith

theorem hueWrap_mem {y : ℚ} (h1 : -1 ≤ y) (h2 : y ≤ 2) :
    0 ≤ hueWrap y ∧ hueWrap y ≤ 1 := by
  unfold hueWrap
  split_ifs <;> constructor <;> linarith

theorem hue_to_rgb_isSome {m1 m2 y : ℚ} (h1 : 0 ≤ hueWrap y) (h2 : hueWrap y ≤ 1) :
    (hue_to_rgb m1 m2 y).isSome = true := by
  simp only [hue_to_rgb]
  split_ifs with hA hB hC hD <;> try rfl
  simp only [not_and_or, not_le, not_lt] at hA hB hC hD
  rcases hA with hA | hA <;> rcases hB with hB | hB <;>
    rcases hC with hC | hC <;> rcases hD with hD | hD <;> linarith

theorem hue_to_rgb_const {c y : ℚ} (h1 : 0 ≤ hueWrap y) (h2 : hueWrap y ≤ 1) :
    hue_to_rgb c c y = some c := by
  simp only [hue_to_rgb]
  split_ifs with hA hB hC hD
  · norm_num
  · rfl
  · norm_num
  · rfl
  · simp only [not_and_or, not_le, not_lt] at hA hB hC hD
    rcases hA with hA | hA <;> rcases hB with hB | hB <;>
      rcases hC with hC | hC <;> rcases hD with hD | hD <;> linarith

theorem hue_to_rgb_eq_const {m1 m2 c y : ℚ} (e1 : m1 = c) (e2 : m2 = c)
    (h1 : 0 ≤ hueWrap y) (h2 : hueWrap y ≤ 1) : hue_to_rgb m1 m2 y = some c := by
  rw [e1, e2]
  exact hue_to_rgb_const h1 h2

theorem fround_zero : fround 0 = 0 := by
  norm_num [fround]

theorem fround_255 : fround 255 = 255 := by
  norm_num [fround]

theorem u8cast_zero : u8cast 0 = 0 := by
  unfold u8cast
  rfl

theorem u8cast_255 : u8cast 255 = 255 := by
  unfold u8cast
  rfl

theorem hslaM2_zero (s : ℚ) : hslaM2 s 0 = 0 := by
  simp [hslaM2]

theorem hslaM1_zero (s : ℚ) : hslaM1 s 0 = 0 := by
  simp [hslaM1, hslaM2_zero]

theorem hslaM2_one (s : ℚ) : hslaM2 s 1 = 1 := by
  rw [hslaM2, if_neg (by norm_num)]
  ring

theorem hslaM1_one (s : ℚ) : hslaM1 s 1 = 1 := by
  rw [hslaM1, hslaM2_one]
  norm_num

theorem hsla_l_zero {h : ℚ} (s a : ℚ) (h1 : -240 ≤ h) (h2 : h ≤ 600) :
    hsla h s 0 a = some (rgba 0 0 0 a) := by
  obtain ⟨hl, hr⟩ := div360_bounds h1 h2
  have w1 := hueWrap_mem (y := h/360 + 1/3) (by linarith) (by linarith)
  have w2 := hueWrap_mem (y := h/360) (by linarith) (by linarith)
  have w3 := hueWrap_mem (y := h/360 - 1/3) (by linarith) (by linarith)
  unfold hsla
  rw [hslaM1_zero, hslaM2_zero]
  rw [hue_to_rgb_const w1.1 w1.2, hue_to_rgb_const w2.1 w2.2,
      hue_to_rgb_const w3.1 w3.2]
  norm_num [fround_zero, u8cast_zero]

theorem hsla_l_one {h : ℚ} (s a : ℚ) (h1 : -240 ≤ h) (h2 : h ≤ 600) :
    hsla h s 1 a = some (rgba 255 255 255 a) := by
  obtain ⟨hl, hr⟩ := div360_bounds h1 h2
  have w1 := hueWrap_mem (y := h/360 + 1/3) (by linarith) (by linarith)
  have w2 := hueWrap_mem (y := h/360) (by linarith) (by linarith)
  have w3 := hueWrap_mem (y := h/360 - 1/3) (by linarith) (by linarith)
  unfold hsla
  rw [hslaM1_one, hslaM2_one]
  rw [hue_to_rgb_const w1.1 w1.2, hue_to_rgb_const w2.1 w2.2,
      hue_to_rgb_const w3.1 w3.2]
  norm_num [fround_255, u8cast_255]

theorem hsla_isSome {h : ℚ} (s l a : ℚ) (h1 : -240 ≤ h) (h2 : h ≤ 600) :
    (hsla h s l a).isSome = true := by
  obtain ⟨hl, hr⟩ := div360_bounds h1 h2
  have w1 := hueWrap_mem (y := h/360 + 1/3) (by linarith) (by linarith)
  have w2 := hueWrap_mem (y := h/360) (by linarith) (by linarith)
  have w3 := hueWrap_mem (y := h/360 - 1/3) (by linarith) (by linarith)
  obtain ⟨r, er⟩ := Option.isSome_iff_exists.1
    (@hue_to_rgb_isSome (hslaM1 s l) (hslaM2 s l) (h/360 + 1/3) w1.1 w1.2)
  obtain ⟨g, eg⟩ := Option.isSome_iff_exists.1
    (@hue_to_rgb_isSome (hslaM1 s l) (hslaM2 s l) (h/360) w2.1 w2.2)
  obtain ⟨b, eb⟩ := Option.isSome_iff_exists.1
    (@hue_to_rgb_isSome (hslaM1 s l) (hslaM2 s l) (h/360 - 1/3) w3.1 w3.2)
  unfold hsla
  rw [er, eg, eb]
  rfl

theorem parse_color_rgb_dispatch {c : List Char}
    (h : startsWith c ("rgb(".data) = true) : parse_color c = parse_rgb c := by
  simp [parse_color, h]

theorem parse_color_rgba_dispatch {c : List Char}
    (h : startsWith c ("rgba(".data) = true) : parse_color c = parse_rgba c := by
  obtain ⟨r, rfl⟩ := startsWith_exists h
  simp [parse_color, startsWith]

theorem parse_color_hsl_dispatch {c : List Char}
    (h : startsWith c ("hsl(".data) = true) : parse_color c = parse_hsl c := by
  obtain ⟨r, rfl⟩ := startsWith_exists h
  simp [parse_color, startsWith]

theorem parse_color_hsla_dispatch {c : List Char}
    (h : startsWith c ("hsla(".data) = true) : parse_color c = parse_hsla c := by
  obtain ⟨r, rfl⟩ := startsWith_exists h
  simp [parse_color, startsWith]

theorem parse_hsl_eval {c body v1 v2 v3 : List Char} {h s l : ℚ} {col : Color}
    (hslice : strSlice 4 (c.length - 1) c = some body)
    (hsplit : splitComma body = [v1, v2, v3])
    (hv1 : from_str_float v1 = some h) (hv2 : from_str_float v2 = some s)
    (hv3 : from_str_float v3 = some l)
    (hcol : hsl h s l = some col) :
    parse_hsl c = .ok col := by
  unfold parse_hsl
  rw [hslice]
  simp only [hsplit, List.length_cons, List.length_nil]
  rw [if_neg (by norm_num)]
  simp only [List.getElem!_cons_zero, List.getElem!_cons_succ]
  rw [hv1, hv2, hv3]
  show (match hsl h s l with
        | some col => PResult.ok col
        | none => PResult.abort) = PResult.ok col
  rw [hcol]

theorem parse_rgb_arity {c body : List Char}
    (hslice : strSlice 4 (c.length - 1) c = some body)
    (hlen : (splitComma body).length ≠ 3) :
    parse_rgb c = .unrecognized := by
  unfold parse_rgb
  simp only [hslice]
  rw [if_pos hlen]
  rfl

theorem parse_rgba_arity {c body : List Char}
    (hslice : strSlice 5 (c.length - 1) c = some body)
    (hlen : (splitComma body).length ≠ 4) :
    parse_rgba c = .unrecognized := by
  unfold parse_rgba
  simp only [hslice]
  rw [if_pos hlen]
  rfl

theorem parse_hsl_arity {c body : List Char}
    (hslice : strSlice 4 (c.length - 1) c = some body)
    (hlen : (splitComma body).length ≠ 3) :
    parse_hsl c = .unrecognized := by
  unfold parse_hsl
  simp only [hslice]
  rw [if_pos hlen]
  rfl

theorem parse_hsla_arity {c body : List Char}
    (hslice : strSlice 5 (c.length - 1) c = some body)
    (hlen : (splitComma body).length ≠ 4) :
    parse_hsla c = .unrecognized := by
  unfold parse_hsla
  simp only [hslice]
  rw [if_pos hlen]
  rfl

theorem parse_rgb_badnum {c body v1 v2 v3 : List Char}
    (hslice : strSlice 4 (c.length - 1) c = some body)
    (hsplit : splitComma body = [v1, v2, v3])
    (hbad : from_str_u8 v1 = none ∨ from_str_u8 v2 = none ∨ from_str_u8 v3 = none) :
    parse_rgb c = .unrecognized := by
  unfold parse_rgb
  simp only [hslice, hsplit, List.length_cons, List.length_nil]
  rw [if_neg (by norm_num)]
  simp only [List.getElem!_cons_zero, List.getElem!_cons_succ]
  rcases hbad with hb | hb | hb
  · simp only [hb]
    rfl
  · cases h1 : from_str_u8 v1 <;> simp only [h1, hb] <;> rfl
  · cases h1 : from_str_u8 v1 <;> cases h2 : from_str_u8 v2 <;>
      simp only [h1, h2, hb] <;> rfl

theorem parse_rgba_badnum {c body v1 v2 v3 v4 : List Char}
    (hslice : strSlice 5 (c.length - 1) c = some body)
    (hsplit : splitComma body = [v1, v2, v3, v4])
    (hbad : from_str_u8 v1 = none ∨ from_str_u8 v2 = none ∨ from_str_u8 v3 = none ∨
      from_str_float v4 = none) :
    parse_rgba c = .unrecognized := by
  unfold parse_rgba
  simp only [hslice, hsplit, List.length_cons, List.length_nil]
  rw [if_neg (by norm_num)]
  simp only [List.getElem!_cons_zero, List.getElem!_cons_succ]
  rcases hbad with hb | hb | hb | hb
  · simp only [hb]
    rfl
  · cases h1 : from_str_u8 v1 <;> simp only [h1, hb] <;> rfl
  · cases h1 : from_str_u8 v1 <;> cases h2 : from_str_u8 v2 <;>
      simp only [h1, h2, hb] <;> rfl
  · cases h1 : from_str_u8 v1 <;> cases h2 : from_str_u8 v2 <;>
      cases h3 : from_str_u8 v3 <;> simp only [h1, h2, h3, hb] <;> rfl

theorem parse_hsl_badnum {c body v1 v2 v3 : List Char}
    (hslice : strSlice 4 (c.length - 1) c = some body)
    (hsplit : splitComma body = [v1, v2, v3])
    (hbad : from_str_float v1 = none ∨ from_str_float v2 = none ∨
      from_str_float v3 = none) :
    parse_hsl c = .unrecognized := by
  unfold parse_hsl
  simp only [hslice, hsplit, List.length_cons, List.length_nil]
  rw [if_neg (by norm_num)]
  simp only [List.getElem!_cons_zero, List.getElem!_cons_succ]
  rcases hbad with hb | hb | hb
  · simp only [hb]
    rfl
  · cases h1 : from_str_float v1 <;> simp only [h1, hb] <;> rfl
  · cases h1 : from_str_float v1 <;> cases h2 : from_str_float v2 <;>
      simp only [h1, h2, hb] <;> rfl

theorem parse_hsla_badnum {c body v1 v2 v3 v4 : List Char}
    (hslice : strSlice 5 (c.length - 1) c = some body)
    (hsplit : splitComma body = [v1, v2, v3, v4])
    (hbad : from_str_float v1 = none ∨ from_str_float v2 = none ∨
      from_str_float v3 = none ∨ from_str_float v4 = none) :
    parse_hsla c = .unrecognized := by
  unfold parse_hsla
  simp only [hslice, hsplit, List.length_cons, List.length_nil]
  rw [if_neg (by norm_num)]
  simp only [List.getElem!_cons_zero, List.getElem!_cons_succ]
  rcases hbad with hb | hb | hb | hb
  · simp only [hb]
    rfl
  · cases h1 : from_str_float v1 <;> simp only [h1, hb] <;> rfl
  · cases h1 : from_str_float v1 <;> cases h2 : from_str_float v2 <;>
      simp only [h1, h2, hb] <;> rfl
  · cases h1 : from_str_float v1 <;> cases h2 : from_str_float v2 <;>
      cases h3 : from_str_float v3 <;> simp only [h1, h2, h3, hb] <;> rfl

/-! ### The claims -/

/-- C1: for every one of the 147 keyword names in the table and every ASCII
case permutation of that name, `parse_color` returns `ok` of exactly the
corresponding named-color constant; and for every string that is not a case
permutation of one of the 147 names and does not start with one of the four
functional heads, `parse_color` returns the absent outcome. -/
theorem claim_C1_keywords :
    (∀ kw col s, (kw, col) ∈ namedColors → casePerm s kw → parse_color s = .ok col)
    ∧ (∀ s, (∀ p ∈ namedColors, ¬ casePerm s p.1) →
        startsWith s ("rgb(".data) = false → startsWith s ("rgba(".data) = false →
        startsWith s ("hsl(".data) = false → startsWith s ("hsla(".data) = false →
        parse_color s = .unrecognized) := by
  constructor
  · intro kw col s hmem hcp
    have hkwlow : toLowerAscii kw = kw := namedColors_lower _ hmem
    have hlow : toLowerAscii s = kw := by
      unfold casePerm at hcp
      rw [hcp, hkwlow]
    have hnp : ∀ p : List Char, toLowerAscii p = p → ('(' : Char) ∈ p →
        startsWith s p = false := by
      intro p hp hparen
      by_contra hsw
      rw [Bool.not_eq_false] at hsw
      have h2 := startsWith_toLower hsw
      rw [hlow, hp] at h2
      exact namedColors_noParen _ hmem (startsWith_subset h2 '(' hparen)
    have e1 : startsWith s ("rgb(".data) = false := hnp _ (by decide) (by decide)
    have e2 : startsWith s ("rgba(".data) = false := hnp _ (by decide) (by decide)
    have e3 : startsWith s ("hsl(".data) = false := hnp _ (by decide) (by decide)
    have e4 : startsWith s ("hsla(".data) = false := hnp _ (by decide) (by decide)
    unfold parse_color
    rw [e1, e2, e3, e4]
    simp only [Bool.false_eq_true, if_false]
    unfold parse_by_name
    rw [hlow, lookupColor_of_mem namedColors_nodupKeys hmem]
  · intro s hnone h1 h2 h3 h4
    unfold parse_color
    rw [h1, h2, h3, h4]
    simp only [Bool.false_eq_true, if_false]
    unfold parse_by_name
    cases hl : lookupColor (toLowerAscii s) namedColors with
    | none => rfl
    | some col =>
      exfalso
      have hmem := lookupColor_mem hl
      have hlow : toLowerAscii (toLowerAscii s) = toLowerAscii s :=
        namedColors_lower _ hmem
      exact hnone _ hmem hlow.symm

/-- C3 (amended): for every hue `h` in the range `[-240, 600]` (the claim's
"any finite reals" fails outside this range, where the single wrap of the
hue helper is insufficient), any saturation and alpha, `hsla` at lightness
0 yields channels `0,0,0` and at lightness 1 yields `255,255,255`; and a
well-formed `hsl(...)` input whose third component converts to 0 (resp. 1)
parses to `black()` (resp. `white()`). -/
theorem claim_C3_lightness :
    (∀ h s a : ℚ, -240 ≤ h → h ≤ 600 →
      hsla h s 0 a = some (rgba 0 0 0 a) ∧ hsla h s 1 a = some (rgba 255 255 255 a))
    ∧ (∀ c body v1 v2 v3 : List Char, ∀ h s : ℚ,
        startsWith c ("hsl(".data) = true →
        strSlice 4 (c.length - 1) c = some body →
        splitComma body = [v1, v2, v3] →
        from_str_float v1 = some h → -240 ≤ h → h ≤ 600 →
        from_str_float v2 = some s →
        (from_str_float v3 = some 0 → parse_color c = .ok css_colors.black) ∧
        (from_str_float v3 = some 1 → parse_color c = .ok css_colors.white)) := by
  constructor
  · intro h s a h1 h2
    exact ⟨hsla_l_zero s a h1 h2, hsla_l_one s a h1 h2⟩
  · intro c body v1 v2 v3 h s hsw hslice hsplit hv1 hh1 hh2 hv2
    constructor
    · intro hv3
      rw [parse_color_hsl_dispatch hsw]
      refine parse_hsl_eval hslice hsplit hv1 hv2 hv3 ?_
      show hsla h s 0 1 = some css_colors.black
      rw [hsla_l_zero s 1 hh1 hh2]
      rfl
    · intro hv3
      rw [parse_color_hsl_dispatch hsw]
      refine parse_hsl_eval hslice hsplit hv1 hv2 hv3 ?_
      show hsla h s 1 1 = some css_colors.white
      rw [hsla_l_one s 1 hh1 hh2]
      rfl

/-- C4 (amended): for every hue `h` in the range `[-240, 600]` (the claim's
"every finite real" fails outside this range), each of the three shifted
hue arguments of `hsla` lies in `[0,1]` after wrapping, and the fail branch
of the hue helper is therefore unreachable, whatever `m1`, `m2`; and `hsla`
itself never aborts on such hues. -/
theorem claim_C4_wrap :
    ∀ h : ℚ, -240 ≤ h → h ≤ 600 →
      (0 ≤ hueWrap (h/360 + 1/3) ∧ hueWrap (h/360 + 1/3) ≤ 1) ∧
      (0 ≤ hueWrap (h/360) ∧ hueWrap (h/360) ≤ 1) ∧
      (0 ≤ hueWrap (h/360 - 1/3) ∧ hueWrap (h/360 - 1/3) ≤ 1) ∧
      (∀ m1 m2 : ℚ, hue_to_rgb m1 m2 (h/360 + 1/3) ≠ none ∧
        hue_to_rgb m1 m2 (h/360) ≠ none ∧ hue_to_rgb m1 m2 (h/360 - 1/3) ≠ none) ∧
      (∀ s l a : ℚ, hsla h s l a ≠ none) := by
  intro h h1 h2
  obtain ⟨hl, hr⟩ := div360_bounds h1 h2
  have w1 := hueWrap_mem (y := h/360 + 1/3) (by linarith) (by linarith)
  have w2 := hueWrap_mem (y := h/360) (by linarith) (by linarith)
  have w3 := hueWrap_mem (y := h/360 - 1/3) (by linarith) (by linarith)
  refine ⟨w1, w2, w3, ?_, ?_⟩
  · intro m1 m2
    refine ⟨?_, ?_, ?_⟩
    · rw [Option.ne_none_iff_isSome]
      exact hue_to_rgb_isSome w1.1 w1.2
    · rw [Option.ne_none_iff_isSome]
      exact hue_to_rgb_isSome w2.1 w2.2
    · rw [Option.ne_none_iff_isSome]
      exact hue_to_rgb_isSome w3.1 w3.2
  · intro s l a
    rw [Option.ne_none_iff_isSome]
    exact hsla_isSome s l a h1 h2

/-- C8: every recognition failure collapses to the absent outcome: for each
functional form, a comma-split component count other than the form's arity
gives `unrecognized`, a component failing numeric conversion gives
`unrecognized`, every input matching no syntax (no functional head and no
case permutation of a keyword) gives `unrecognized`, and the three
concrete rejected inputs of the spec are `unrecognized`. -/
theorem claim_C8_failure_collapse :
    (∀ c body : List Char, startsWith c ("rgb(".data) = true →
      strSlice 4 (c.length - 1) c = some body →
      (splitComma body).length ≠ 3 → parse_color c = .unrecognized) ∧
    (∀ c body : List Char, startsWith c ("rgba(".data) = true →
      strSlice 5 (c.length - 1) c = some body →
      (splitComma body).length ≠ 4 → parse_color c = .unrecognized) ∧
    (∀ c body : List Char, startsWith c ("hsl(".data) = true →
      strSlice 4 (c.length - 1) c = some body →
      (splitComma body).length ≠ 3 → parse_color c = .unrecognized) ∧
    (∀ c body : List Char, startsWith c ("hsla(".data) = true →
      strSlice 5 (c.length - 1) c = some body →
      (splitComma body).length ≠ 4 → parse_color c = .unrecognized) ∧
    (∀ c body v1 v2 v3 : List Char, startsWith c ("rgb(".data) = true →
      strSlice 4 (c.length - 1) c = some body →
      splitComma body = [v1, v2, v3] →
      (from_str_u8 v1 = none ∨ from_str_u8 v2 = none ∨ from_str_u8 v3 = none) →
      parse_color c = .unrecognized) ∧
    (∀ c body v1 v2 v3 v4 : List Char, startsWith c ("rgba(".data) = true →
      strSlice 5 (c.length - 1) c = some body →
      splitComma body = [v1, v2, v3, v4] →
      (from_str_u8 v1 = none ∨ from_str_u8 v2 = none ∨ from_str_u8 v3 = none ∨
        from_str_float v4 = none) →
      parse_color c = .unrecognized) ∧
    (∀ c body v1 v2 v3 : List Char, startsWith c ("hsl(".data) = true →
      strSlice 4 (c.length - 1) c = some body →
      splitComma body = [v1, v2, v3] →
      (from_str_float v1 = none ∨ from_str_float v2 = none ∨ from_str_float v3 = none) →
      parse_color c = .unrecognized) ∧
    (∀ c body v1 v2 v3 v4 : List Char, startsWith c ("hsla(".data) = true →
      strSlice 5 (c.length - 1) c = some body →
      splitComma body = [v1, v2, v3, v4] →
      (from_str_float v1 = none ∨ from_str_float v2 = none ∨ from_str_float v3 = none ∨
        from_str_float v4 = none) →
      parse_color c = .unrecognized) ∧
    (∀ s : List Char, (∀ p ∈ namedColors, ¬ casePerm s p.1) →
      startsWith s ("rgb(".data) = false → startsWith s ("rgba(".data) = false →
      startsWith s ("hsl(".data) = false → startsWith s ("hsla(".data) = false →
      parse_color s = .unrecognized) ∧
    parse_color ("foobarbaz".data) = .unrecognized ∧
    parse_color ("rbga(1,2,3)".data) = .unrecognized ∧
    parse_color ("hsl(1,2,3,.4)".data) = .unrecognized := by
  refine ⟨?_, ?_, ?_, ?_, ?_, ?_, ?_, ?_, ?_, by decide, by decide, by decide⟩
  · intro c body hsw hslice hlen
    rw [parse_color_rgb_dispatch hsw]
    exact parse_rgb_arity hslice hlen
  · intro c body hsw hslice hlen
    rw [parse_color_rgba_dispatch hsw]
    exact parse_rgba_arity hslice hlen
  · intro c body hsw hslice hlen
    rw [parse_color_hsl_dispatch hsw]
    exact parse_hsl_arity hslice hlen
  · intro c body hsw hslice hlen
    rw [parse_color_hsla_dispatch hsw]
    exact parse_hsla_arity hslice hlen
  · intro c body v1 v2 v3 hsw hslice hsplit hbad
    rw [parse_color_rgb_dispatch hsw]
    exact parse_rgb_badnum hslice hsplit hbad
  · intro c body v1 v2 v3 v4 hsw hslice hsplit hbad
    rw [parse_color_rgba_dispatch hsw]
    exact parse_rgba_badnum hslice hsplit hbad
  · intro c body v1 v2 v3 hsw hslice hsplit hbad
    rw [parse_color_hsl_dispatch hsw]
    exact parse_hsl_badnum hslice hsplit hbad
  · intro c body v1 v2 v3 v4 hsw hslice hsplit hbad
    rw [parse_color_hsla_dispatch hsw]
    exact parse_hsla_badnum hslice hsplit hbad
  · intro s hnone h1 h2 h3 h4
    unfold parse_color
    rw [h1, h2, h3, h4]
    simp only [Bool.false_eq_true, if_false]
    unfold parse_by_name
    cases hl : lookupColor (toLowerAscii s) namedColors with
    | none => rfl
    | some col =>
      exfalso
      have hmem := lookupColor_mem hl
      have hlow : toLowerAscii (toLowerAscii s) = toLowerAscii s :=
        namedColors_lower _ hmem
      exact hnone _ hmem hlow.symm

/-- C9: the constructors satisfy `rgb(r,g,b) = rgba(r,g,b,1.0)` (alpha is
exactly 1.0) and `hsl(h,s,l) = hsla(h,s,l,1.0)`, under the derived
structural equality comparing all four fields exactly. -/
theorem claim_C9_constructor_identities :
    (∀ r g b : Fin 256, rgb r g b = rgba r g b 1 ∧ (rgb r g b).alpha = 1) ∧
    (∀ h s l : ℚ, hsl h s l = hsla h s l 1) :=
  ⟨fun _ _ _ => ⟨rfl, rfl⟩, fun _ _ _ => rfl⟩

/-- C2: the HSL functional form agrees with the keyword constants at the
primary hues and at the achromatic midpoint, where the fractional channel
`127.5` rounds half away from zero to `128`. -/
theorem claim_C2_hsl_examples :
    parse_color ("hsl(0,1,.5)".data) = .ok css_colors.red ∧
    parse_color ("hsl(120,1,.5)".data) = .ok css_colors.lime ∧
    parse_color ("hsl(240,1,.5)".data) = .ok css_colors.blue ∧
    parse_color ("hsl(0,0,0.5)".data) = .ok css_colors.gray ∧
    css_colors.gray = rgba 128 128 128 1 ∧
    css_colors.red = rgba 255 0 0 1 ∧
    css_colors.lime = rgba 0 255 0 1 ∧
    css_colors.blue = rgba 0 0 255 1 ∧
    fround (255 * (1/2)) = 128 := by decide

/-- C5: contrary to the claim that `parse_color` is total over bad input,
a bare functional head aborts (the slice of `rgb(` with begin 4 and end 3
violates the slice bounds), and a well-formed `hsl` input with a large hue
reaches the hue helper's fail branch; the test "foobarbaz" path does
return the absent outcome. -/
theorem claim_C5_abort_on_bad_input :
    parse_color ("rgb(".data) = .abort ∧
    parse_color ("rgba(".data) = .abort ∧
    parse_color ("hsl(".data) = .abort ∧
    parse_color ("hsla(".data) = .abort ∧
    parse_color ("hsl(1080,1,.5)".data) = .abort ∧
    parse_color ("foobarbaz".data) = .unrecognized := by decide

/-- C6: the rgb/rgba numeric forms agree with the constructors, with
zero-padded components and a leading-zero-optional decimal alpha accepted. -/
theorem claim_C6_rgb_numeric :
    parse_color ("rgb(255,0,0)".data) = .ok (rgb 255 0 0) ∧
    rgb 255 0 0 = css_colors.red ∧
    parse_color ("rgb(1,2,03)".data) = .ok (rgb 1 2 3) ∧
    parse_color ("rgba(15,250,3,.5)".data) = .ok (rgba 15 250 3 (1/2)) ∧
    parse_color ("rgba(15,250,3,0.5)".data) = .ok (rgba 15 250 3 (1/2)) := by decide

/-- C7: a single space after each comma does not make the numeric
conversion of the three components fail. -/
theorem claim_C7_whitespace :
    parse_color ("rgb(240, 248, 255)".data) = .ok (rgb 240 248 255) ∧
    rgb 240 248 255 = css_colors.aliceblue := by decide

/-- C10: the functional-form extraction discards the last character
unconditionally, so an input not ending in a closing parenthesis parses
successfully, to the same result as the properly terminated input. -/
theorem claim_C10_trailing_char :
    parse_color ("rgb(1,2,3x".data) = .ok (rgb 1 2 3) ∧
    parse_color ("rgb(1,2,3)".data) = .ok (rgb 1 2 3) ∧
    ("rgb(1,2,3x".data).getLast? = some 'x' := by decide

/-- C3 counterexample: at the finite hue 1080 the conversion aborts
instead of producing black, falsifying the claim's "any finite reals". -/
theorem claim_C3_cex :
    hsla 1080 1 0 1 = none ∧ hsla 1080 1 0 1 ≠ some (rgba 0 0 0 1) := by decide

/-- C4 counterexample: at the finite hue 1080 the first shifted hue
argument wraps to `7/3`, which is not in `[0,1]`, and the hue helper's
fail branch is reached. -/
theorem claim_C4_cex :
    hueWrap (1080/360 + 1/3) = 7/3 ∧ ¬ (hueWrap (1080/360 + 1/3) ≤ 1) ∧
    hue_to_rgb 0 1 (1080/360 + 1/3) = none ∧
    hsla 1080 1 (1/2) 1 = none := by decide

/-- Witness for C1 at concrete inputs. -/
theorem claim_C1_keywords_witness :
    parse_color ("RED".data) = .ok css_colors.red ∧
    parse_color ("foobarbaz".data) = .unrecognized := by
  constructor
  · exact claim_C1_keywords.1 ("red".data) css_colors.red ("RED".data)
      (by decide) (by decide)
  · exact claim_C1_keywords.2 ("foobarbaz".data) (by decide)
      (by decide) (by decide) (by decide) (by decide)

/-- Witness for C3 at concrete inputs. -/
theorem claim_C3_lightness_witness :
    hsla 90 (1/2) 0 (3/4) = some (rgba 0 0 0 (3/4)) ∧
    hsla 90 (1/2) 1 (3/4) = some (rgba 255 255 255 (3/4)) ∧
    parse_color ("hsl(90,.5,0)".data) = .ok css_colors.black ∧
    parse_color ("hsl(90,.5,1)".data) = .ok css_colors.white := by
  have h1 := claim_C3_lightness.1 90 (1/2) (3/4) (by norm_num) (by norm_num)
  have h2 := claim_C3_lightness.2 ("hsl(90,.5,0)".data) ("90,.5,0".data)
    ("90".data) (".5".data) ("0".data) 90 (1/2) (by decide) (by decide)
    (by decide) (by decide) (by norm_num) (by norm_num) (by decide)
  have h3 := claim_C3_lightness.2 ("hsl(90,.5,1)".data) ("90,.5,1".data)
    ("90".data) (".5".data) ("1".data) 90 (1/2) (by decide) (by decide)
    (by decide) (by decide) (by norm_num) (by norm_num) (by decide)
  exact ⟨h1.1, h1.2, h2.1 (by decide), h3.2 (by decide)⟩

/-- Witness for C4 at a concrete hue. -/
theorem claim_C4_wrap_witness :
    (0 ≤ hueWrap ((90:ℚ)/360 + 1/3) ∧ hueWrap ((90:ℚ)/360 + 1/3) ≤ 1) ∧
    hue_to_rgb 0 1 ((90:ℚ)/360) ≠ none ∧
    hsla 90 1 (1/2) 1 ≠ none := by
  have h := claim_C4_wrap 90 (by norm_num) (by norm_num)
  exact ⟨h.1, (h.2.2.2.1 0 1).2.1, h.2.2.2.2 1 (1/2) 1⟩

/-- Witness for C8 at concrete inputs. -/
theorem claim_C8_failure_collapse_witness :
    parse_color ("rgb(1,2)".data) = .unrecognized ∧
    parse_color ("rgb(1,2,x)".data) = .unrecognized ∧
    parse_color ("hsla(1,2,3)".data) = .unrecognized ∧
    parse_color ("notacolor".data) = .unrecognized := by
  refine ⟨?_, ?_, ?_, ?_⟩
  · exact claim_C8_failure_collapse.1 ("rgb(1,2)".data) ("1,2".data)
      (by decide) (by decide) (by decide)
  · exact claim_C8_failure_collapse.2.2.2.2.1 ("rgb(1,2,x)".data) ("1,2,x".data)
      ("1".data) ("2".data) ("x".data) (by decide) (by decide) (by decide)
      (Or.inr (Or.inr (by decide)))
  · exact claim_C8_failure_collapse.2.2.2.1 ("hsla(1,2,3)".data) ("1,2,3".data)
      (by decide) (by decide) (by decide)
  · exact claim_C8_failure_collapse.2.2.2.2.2.2.2.2.1 ("notacolor".data)
      (by decide) (by decide) (by decide) (by decide) (by decide)

end RustCss
